import Mathlib

/-!
Verification of the nanoparticle-simulator core: particle and ensemble data
model, process rate laws, the stochastic solver's rate composition, deferred
linear processes, gas source terms, and the operator-splitting coordinator.
Python floats are modelled as exact rationals, Python ints as integers; the
random number generator is abstracted by passing the drawn values as
parameters, quantified universally in the theorems.
-/

namespace NanoSim

/-- Carbon atomic mass in kg/mol: the constant `C_MASS = 12.011e-3` from
`particles/particle.py`. -/
def C_MASS : ℚ := 12011 / 1000000

/-- Hydrogen atomic mass in kg/mol: the constant `H_MASS = 1.008e-3` from
`particles/particle.py`. -/
def H_MASS : ℚ := 1008 / 1000000

/-- Avogadro's number: the constant `AVOGADRO = 6.02214076e23` defined in
`particles/particle.py` and `particles/processes.py`. -/
def AVOGADRO : ℚ := 602214076 * 10 ^ 15

/-- The rounded conversion constant `6.022e23` hard-coded inside
`StochasticSolver.get_source_terms` (`stochastic_solver.py`, lines 566-579).
Note it differs from `AVOGADRO` above. -/
def NA_ROUNDED : ℚ := 6022 * 10 ^ 20

/-- A particle record, from `particles/particle.py` (`Particle` dataclass):
carbon count, hydrogen count, primary-particle count, active surface sites,
creation time.  The repr-excluded bookkeeping field `_id` is not modelled. -/
structure Particle where
  n_carbon : ℤ := 0
  n_hydrogen : ℤ := 0
  n_primary : ℤ := 1
  active_sites : ℤ := 0
  creation_time : ℚ := 0
deriving DecidableEq

/-- Particle mass in kg (`Particle.mass`):
`n_carbon * C_MASS / AVOGADRO + n_hydrogen * H_MASS / AVOGADRO`. -/
def Particle.mass (p : Particle) : ℚ :=
  p.n_carbon * C_MASS / AVOGADRO + p.n_hydrogen * H_MASS / AVOGADRO

/-- Coagulation of two particles (`Particle.coagulate`): summed counts,
minimum creation time. -/
def Particle.coagulate (p other : Particle) : Particle :=
  { n_carbon := p.n_carbon + other.n_carbon
    n_hydrogen := p.n_hydrogen + other.n_hydrogen
    n_primary := p.n_primary + other.n_primary
    active_sites := p.active_sites + other.active_sites
    creation_time := min p.creation_time other.creation_time }

/-- Deep copy of a particle (`Particle.copy`); the copied `_id` is not
modelled. -/
def Particle.copy (p : Particle) : Particle :=
  { n_carbon := p.n_carbon
    n_hydrogen := p.n_hydrogen
    n_primary := p.n_primary
    active_sites := p.active_sites
    creation_time := p.creation_time }

/-- Add carbon atoms (`Particle.add_carbon`). -/
def Particle.add_carbon (p : Particle) (n : ℤ) : Particle :=
  { p with n_carbon := p.n_carbon + n }

/-- Add hydrogen atoms (`Particle.add_hydrogen`). -/
def Particle.add_hydrogen (p : Particle) (n : ℤ) : Particle :=
  { p with n_hydrogen := p.n_hydrogen + n }

/-- Remove carbon atoms (`Particle.remove_carbon`): if `n_carbon >= n`,
subtract and return `True`, else return `False` and leave the particle
unchanged.  The mutating Python method is modelled as returning the flag
together with the updated particle. -/
def Particle.remove_carbon (p : Particle) (n : ℤ) : Bool × Particle :=
  if n ≤ p.n_carbon then (true, { p with n_carbon := p.n_carbon - n })
  else (false, p)

/-- Remove hydrogen atoms (`Particle.remove_hydrogen`), analogous to
`Particle.remove_carbon`. -/
def Particle.remove_hydrogen (p : Particle) (n : ℤ) : Bool × Particle :=
  if n ≤ p.n_hydrogen then (true, { p with n_hydrogen := p.n_hydrogen - n })
  else (false, p)

/-- The ensemble state relevant to population-level quantities
(`particles/ensemble.py`, `ParticleEnsemble`): particle list, statistical
weight, sample volume. -/
structure ParticleEnsemble where
  particles : List Particle
  statistical_weight : ℚ
  sample_volume : ℚ
deriving DecidableEq

/-- Number of particles (`ParticleEnsemble.n_particles`). -/
def ParticleEnsemble.n_particles (e : ParticleEnsemble) : ℕ :=
  e.particles.length

/-- Number density in #/m³ (`ParticleEnsemble.number_density`):
zero when the sample volume is non-positive, else
`n_particles * statistical_weight / sample_volume`. -/
def ParticleEnsemble.number_density (e : ParticleEnsemble) : ℚ :=
  if e.sample_volume ≤ 0 then 0
  else e.n_particles * e.statistical_weight / e.sample_volume

/-- Pop particles at the given index positions, in the order listed; the
source `_halve` pops its sampled indices sorted in reverse (descending)
order, so the argument is the descending-sorted index list drawn by the
RNG. -/
def popMany (ps : List Particle) : List ℕ → List Particle
  | [] => ps
  | i :: rest => popMany (ps.eraseIdx i) rest

/-- Halving (`ParticleEnsemble._halve`): delete the particles at the drawn
index positions (the RNG draw of `n_particles // 2` distinct indices is
abstracted into the `idxs` argument, already sorted descending) and double
the statistical weight. -/
def ParticleEnsemble.halve (e : ParticleEnsemble) (idxs : List ℕ) :
    ParticleEnsemble :=
  { e with particles := popMany e.particles idxs
           statistical_weight := e.statistical_weight * 2 }

/-- Doubling (`ParticleEnsemble._double`): append a copy of every existing
particle and halve the statistical weight. -/
def ParticleEnsemble.double (e : ParticleEnsemble) : ParticleEnsemble :=
  { e with particles := e.particles ++ e.particles.map Particle.copy
           statistical_weight := e.statistical_weight * (1 / 2) }

/-- Pair selection (`ParticleEnsemble.select_random_pair`): `None` when
fewer than 2 particles; otherwise with RNG draws `r1 < n` and `r2 < n - 1`,
return `(r1, r2 + 1)` when `r2 ≥ r1` and `(r1, r2)` otherwise. -/
def select_random_pair (n r1 r2 : ℕ) : Option (ℕ × ℕ) :=
  if n < 2 then none
  else some (r1, if r1 ≤ r2 then r2 + 1 else r2)

/-- Outcome of `ParticleEnsemble.select_weighted`: the `None` no-selection
return, a returned `(index, particle)` pair, or the `ValueError` that
`np.random.Generator.choice` raises on an invalid probability vector. -/
inductive WeightedSelection where
  | noSelection : WeightedSelection
  | selection : ℕ → Particle → WeightedSelection
  | valueError : WeightedSelection
deriving DecidableEq

/-- Weighted selection (`ParticleEnsemble.select_weighted`): `None` when the
ensemble is empty or the weights sum to a non-positive value; otherwise
`probs = weights / total` is passed to `rng.choice(n_particles, p=probs)`,
which raises `ValueError` when `probs` has a different length than the
population or contains a negative entry (with total > 0, `probs[i] < 0`
exactly when `weights[i] < 0`; in exact arithmetic `probs` sums to exactly
1, so the sum-tolerance check cannot fire), and otherwise returns a drawn
index below `n_particles`, modelled by the `draw` parameter (the
out-of-range `draw` branch is unreachable for the real RNG). -/
def select_weighted (ps : List Particle) (ws : List ℚ) (draw : ℕ) :
    WeightedSelection :=
  if ps.length = 0 then WeightedSelection.noSelection
  else if ws.sum ≤ 0 then WeightedSelection.noSelection
  else if ws.length = ps.length then
    if ws.any (fun w => decide (w < 0)) then WeightedSelection.valueError
    else
      match ps.get? draw with
      | some p => WeightedSelection.selection draw p
      | none => WeightedSelection.noSelection
  else WeightedSelection.valueError

/-- Container for process rates (`particles/processes.py`, `ProcessRates`). -/
structure ProcessRates where
  nucleation : ℚ := 0
  growth : ℚ := 0
  coagulation : ℚ := 0
  oxidation : ℚ := 0
deriving DecidableEq

/-- Total rate (`ProcessRates.total_rate`): the sum of the absolute values of
all four rates. -/
def ProcessRates.total_rate (r : ProcessRates) : ℚ :=
  |r.nucleation| + |r.growth| + |r.coagulation| + |r.oxidation|

/-- Solver configuration with its defaults (`stochastic_solver.py`,
`SolverConfig`); the RNG seed is abstracted away. -/
structure SolverConfig where
  max_particles : ℕ := 4096
  min_particles : ℕ := 512
  sample_volume : ℚ := 1 / 10 ^ 9
  defer_growth : Bool := true
  defer_oxidation : Bool := true
deriving DecidableEq

/-- The part of `StochasticSolver` state that rate composition depends on:
the configuration, the ensemble's particle list, and whether each of the
four processes has been registered via `add_process`. -/
structure StochasticSolver where
  config : SolverConfig
  particles : List Particle
  hasNucleation : Bool
  hasGrowth : Bool
  hasCoagulation : Bool
  hasOxidation : Bool
deriving DecidableEq

/-- Rate computation (`StochasticSolver.compute_rates`).  The numeric rate
laws are abstracted into parameters: `nucRate` is the value of
`NucleationProcess.rate(gas)`, `growthRate p` of
`GrowthProcess.carbon_addition_rate(gas, p)`, `oxRate p` of
`OxidationProcess.carbon_removal_rate(gas, p)`, and `coagEstimate` of
`_compute_coagulation_rate(gas)`.  The structure mirrors the source: the
nucleation rate when registered, the per-particle growth and oxidation sums
when particles exist, the coagulation estimate when more than one particle
exists; the deferment flags are never consulted. -/
def StochasticSolver.compute_rates (s : StochasticSolver) (nucRate : ℚ)
    (growthRate oxRate : Particle → ℚ) (coagEstimate : ℚ) : ProcessRates :=
  let r0 : ProcessRates := {}
  let r1 := if s.hasNucleation then { r0 with nucleation := nucRate } else r0
  if 0 < s.particles.length then
    let r2 := if s.hasGrowth then
        { r1 with growth := (s.particles.map growthRate).sum } else r1
    let r3 := if s.hasOxidation then
        { r2 with oxidation := (s.particles.map oxRate).sum } else r2
    if s.hasCoagulation && 1 < s.particles.length then
      { r3 with coagulation := coagEstimate }
    else r3
  else r1

/-- Python `int(.)` conversion: truncation toward zero. -/
def truncQ (q : ℚ) : ℤ := if 0 ≤ q then ⌊q⌋ else ⌈q⌉

/-- The loop body of `StochasticSolver._apply_deferred` for one particle.
The source loop contains only the growth branch (`if defer_growth and
growth is not None`): it computes `n_add = int(rate * dt)` and, when
positive, adds `n_add` carbon and `n_add // 2` hydrogen atoms.  There is no
oxidation branch in the source, so no oxidation-rate parameter appears. -/
def deferredParticle (cfg : SolverConfig) (hasGrowth : Bool)
    (growthRate : Particle → ℚ) (dt : ℚ) (p : Particle) : Particle :=
  if cfg.defer_growth && hasGrowth then
    let n_add := truncQ (growthRate p * dt)
    if 0 < n_add then (p.add_carbon n_add).add_hydrogen (Int.fdiv n_add 2)
    else p
  else p

/-- Deferred pass (`StochasticSolver._apply_deferred`): returns immediately
when both deferment flags are off; otherwise iterates the ensemble once
applying the loop body. -/
def StochasticSolver.apply_deferred (s : StochasticSolver)
    (growthRate : Particle → ℚ) (dt : ℚ) : List Particle :=
  if !s.config.defer_growth && !s.config.defer_oxidation then s.particles
  else s.particles.map (deferredParticle s.config s.hasGrowth growthRate dt)

/-- The gas species named by the source-term dictionary of
`get_source_terms`, modelled as an enumeration of the five string keys the
source writes. -/
inductive Species where
  | A4 : Species
  | H2 : Species
  | C2H2 : Species
  | O2 : Species
  | CO : Species
deriving DecidableEq

/-- The empty source-term dictionary. -/
def emptySources : Species → ℚ := fun _ => 0

/-- One dictionary update `sources[name] = sources.get(name, 0.0) + v`. -/
def addSource (s : Species → ℚ) (name : Species) (v : ℚ) : Species → ℚ :=
  fun n => if n = name then s name + v else s n

/-- Gas source terms (`StochasticSolver.get_source_terms`), as a function of
the rates returned by `compute_rates`: nucleation contributes `-2 nuc` to
`A4` and `+nuc` to `H2`, growth `-g` to `C2H2` and `+g/2` to `H2` with
`g = growth / (2 Na)`, oxidation `-ox/2` to `O2` and `+ox` to `CO`, where
the conversion constant `Na` is the hard-coded rounded `6.022e23`. -/
def StochasticSolver.get_source_terms (s : StochasticSolver)
    (r : ProcessRates) : Species → ℚ :=
  let src1 := if s.hasNucleation then
      let nuc_rate := r.nucleation / NA_ROUNDED
      addSource (addSource emptySources Species.A4 (-2 * nuc_rate))
        Species.H2 nuc_rate
    else emptySources
  let src2 := if s.hasGrowth then
      let growth_rate := r.growth / (NA_ROUNDED * 2)
      addSource (addSource src1 Species.C2H2 (-growth_rate)) Species.H2
        (growth_rate * (1 / 2))
    else src1
  if s.hasOxidation then
    let ox_rate := r.oxidation / NA_ROUNDED
    addSource (addSource src2 Species.O2 (-(ox_rate * (1 / 2)))) Species.CO
      ox_rate
  else src2

/-- Narrow gas capability used by the rate laws (`GasPhaseInterface`):
temperature, pressure, and per-species molar concentration in kmol/m³.
`none` models the `KeyError` raised by `species_concentration` when the
species is absent from the mechanism. -/
structure GasCapability where
  T : ℚ
  P : ℚ
  conc : String → Option ℚ

/-- Nucleation rate constant `_k_nuc = 2.0e9` set in
`NucleationProcess.__init__`. -/
def k_nuc : ℚ := 2 * 10 ^ 9

/-- Nucleation rate (`NucleationProcess.rate`): reads the precursor
concentration, converting kmol/m³ to mol/m³ by the factor 1000; a raised
`KeyError`/`ValueError` (modelled by `none`) is caught and gives rate 0;
otherwise `0.5 * k_nuc * c² * AVOGADRO` for the mol/m³ concentration `c`. -/
def nucleation_rate (precursor : String) (gas : GasCapability) : ℚ :=
  match gas.conc precursor with
  | none => 0
  | some c => (1 / 2) * k_nuc * (c * 1000) ^ 2 * AVOGADRO

/-- Concrete gas fixture holding only the precursor `A4` at 2 kmol/m³. -/
def gasA4 : GasCapability :=
  { T := 1500, P := 101325
    conc := fun n => if n = "A4" then some 2 else none }

/-- Actions performed by an operator-splitting step
(`reactor/splitting.py`): refreshing the particle → gas source terms
(`_update_gas_sources`), advancing the gas by some time
(`_advance_gas`), advancing the particles (`_advance_particles`). -/
inductive SplitAction where
  | refreshSources : SplitAction
  | advanceGas : ℚ → SplitAction
  | advanceParticles : ℚ → SplitAction
deriving DecidableEq

/-- The sequence of actions performed by `StrangSplitter.step(dt)`, read
off the source line by line: update sources, gas half step, particle full
step, update sources, gas half step. -/
def strangStep (dt : ℚ) : List SplitAction :=
  [SplitAction.refreshSources,
   SplitAction.advanceGas ((1 / 2) * dt),
   SplitAction.advanceParticles dt,
   SplitAction.refreshSources,
   SplitAction.advanceGas ((1 / 2) * dt)]

/-- Modelled from the spec: the action sequence the claim asserts for one
Strang step — gas half step, refresh sources, particle full step, refresh
sources, gas half step, with no other refresh.  Written from the claim's
words for comparison against `strangStep`, which is read off the source. -/
def strangStepSpec (dt : ℚ) : List SplitAction :=
  [SplitAction.advanceGas ((1 / 2) * dt),
   SplitAction.refreshSources,
   SplitAction.advanceParticles dt,
   SplitAction.refreshSources,
   SplitAction.advanceGas ((1 / 2) * dt)]

/-- Interpreter for action sequences over an arbitrary coupled-system state,
with the semantics of the three primitive operations given as parameters. -/
def runSplit {σ : Type} (fR : σ → σ) (fG : ℚ → σ → σ) (fP : ℚ → σ → σ) :
    List SplitAction → σ → σ
  | [], s => s
  | SplitAction.refreshSources :: rest, s => runSplit fR fG fP rest (fR s)
  | SplitAction.advanceGas q :: rest, s => runSplit fR fG fP rest (fG q s)
  | SplitAction.advanceParticles q :: rest, s =>
      runSplit fR fG fP rest (fP q s)

/-- The part of the gas snapshot the corrector compares
(`chemistry/gas_phase.py`, `GasPhaseState`): temperature and mass
fractions. -/
structure GasPhaseState where
  T : ℚ
  Y : List ℚ
deriving DecidableEq

/-- Splitting configuration with its defaults (`reactor/splitting.py`,
`SplittingConfig`). -/
structure SplittingConfig where
  substeps : ℕ := 1
  rtol : ℚ := 1 / 10 ^ 4
  max_corrector_iters : ℕ := 3
  corrector_tol : ℚ := 1 / 1000
deriving DecidableEq

/-- Maximum absolute componentwise difference, `np.max(np.abs(b - a))`
totalised to 0 on the empty vector. -/
def maxAbsDiff (a b : List ℚ) : ℚ :=
  (List.zipWith (fun x y => |y - x|) a b).foldr max 0

/-- Convergence check (`PredictorCorrector._check_convergence`): fail when
the relative temperature error `|T2 - T1| / max(T1, 1)` exceeds the
tolerance, fail when the max-abs mass-fraction error exceeds it, else
succeed. -/
def check_convergence (tol : ℚ) (state1 state2 : GasPhaseState) : Bool :=
  if tol < |state2.T - state1.T| / max state1.T 1 then false
  else if tol < maxAbsDiff state1.Y state2.Y then false
  else true

/-- The corrector loop of `PredictorCorrector.step`: with fuel iterations
remaining and the current predicted state, restore the saved initial state
`g0`, re-advance the gas (`advCorr`, the gas advance with the refreshed
sources installed), and stop when converged, else re-iterate with the
corrected state as the new prediction.  Returns the gas state left
installed, the number of iterations executed, and whether convergence was
reached. -/
def correctorLoop (advCorr : GasPhaseState → GasPhaseState) (tol : ℚ)
    (g0 : GasPhaseState) : ℕ → GasPhaseState → GasPhaseState × ℕ × Bool
  | 0, predicted => (predicted, 0, false)
  | n + 1, predicted =>
    let corrected := advCorr g0
    if check_convergence tol predicted corrected then (corrected, 1, true)
    else
      let r := correctorLoop advCorr tol g0 n corrected
      (r.1, r.2.1 + 1, r.2.2)

/-- `PredictorCorrector.step`: snapshot the initial gas state, refresh
sources, predict by advancing the gas (`advPred`, the advance with the
initial sources), advance the particles (which leaves the gas state
untouched), refresh sources, then run the corrector loop up to `maxIters`
times. -/
def predictor_corrector_step (advPred advCorr : GasPhaseState → GasPhaseState)
    (tol : ℚ) (maxIters : ℕ) (g0 : GasPhaseState) :
    GasPhaseState × ℕ × Bool :=
  correctorLoop advCorr tol g0 maxIters (advPred g0)

/-- C5: coagulation of any two particles yields the particle with summed
carbon, hydrogen, primary and active-site counts, creation time the minimum
of the parents', and mass exactly the sum of the parents' masses in exact
rational arithmetic. -/
theorem C5_coagulate_conserves (p1 p2 : Particle) :
    (p1.coagulate p2).n_carbon = p1.n_carbon + p2.n_carbon ∧
    (p1.coagulate p2).n_hydrogen = p1.n_hydrogen + p2.n_hydrogen ∧
    (p1.coagulate p2).n_primary = p1.n_primary + p2.n_primary ∧
    (p1.coagulate p2).active_sites = p1.active_sites + p2.active_sites ∧
    (p1.coagulate p2).creation_time = min p1.creation_time p2.creation_time ∧
    (p1.coagulate p2).mass = p1.mass + p2.mass := by
  refine ⟨rfl, rfl, rfl, rfl, rfl, ?_⟩
  simp only [Particle.mass, Particle.coagulate]
  push_cast
  ring

/-- C10: for `n ≥ 0`, `remove_carbon n` succeeds and subtracts exactly `n`
when `n_carbon ≥ n`, otherwise fails and leaves the particle unchanged; the
same holds for `remove_hydrogen` on `n_hydrogen`; neither operation can
drive a non-negative atom count negative. -/
theorem C10_remove_atoms (p : Particle) (n : ℤ) (hn : 0 ≤ n) :
    (n ≤ p.n_carbon →
      p.remove_carbon n = (true, { p with n_carbon := p.n_carbon - n })) ∧
    (p.n_carbon < n → p.remove_carbon n = (false, p)) ∧
    (0 ≤ p.n_carbon → 0 ≤ (p.remove_carbon n).2.n_carbon) ∧
    (n ≤ p.n_hydrogen →
      p.remove_hydrogen n = (true, { p with n_hydrogen := p.n_hydrogen - n })) ∧
    (p.n_hydrogen < n → p.remove_hydrogen n = (false, p)) ∧
    (0 ≤ p.n_hydrogen → 0 ≤ (p.remove_hydrogen n).2.n_hydrogen) := by
  unfold Particle.remove_carbon Particle.remove_hydrogen
  refine ⟨fun h => ?_, fun h => ?_, fun h => ?_, fun h => ?_, fun h => ?_,
    fun h => ?_⟩ <;> split <;> simp_all <;> omega

/-- C10 witness: evaluation of both removal operations at the concrete
particle (C=5, H=3) with removal counts 2 and 7. -/
theorem C10_remove_atoms_witness :
    Particle.remove_carbon ⟨5, 3, 1, 0, 0⟩ 2 = (true, ⟨3, 3, 1, 0, 0⟩) ∧
    Particle.remove_hydrogen ⟨5, 3, 1, 0, 0⟩ 7 = (false, ⟨5, 3, 1, 0, 0⟩) := by
  have h1 := C10_remove_atoms ⟨5, 3, 1, 0, 0⟩ 2 (by norm_num)
  have h2 := C10_remove_atoms ⟨5, 3, 1, 0, 0⟩ 7 (by norm_num)
  exact ⟨h1.1 (by norm_num), h2.2.2.2.2.1 (by norm_num)⟩

/-- C4 counterexample: the action sequence of `StrangSplitter.step` is not
the sequence the claim states — the source refreshes the particle → gas
sources before the first gas half-step, not between the first gas half-step
and the particle step. -/
theorem C4_counterexample : strangStep 1 ≠ strangStepSpec 1 := by decide

/-- C4 (amended): one Strang step performs, in order: refresh sources,
advance gas by Δt/2, advance particles by Δt, refresh sources, advance gas
by Δt/2 — for any semantics of the three primitive operations — and
refreshes the sources exactly twice (at no other points). -/
theorem C4_amended_strang_sequence {σ : Type} (fR : σ → σ)
    (fG fP : ℚ → σ → σ) (dt : ℚ) (s : σ) :
    runSplit fR fG fP (strangStep dt) s =
      fG ((1 / 2) * dt) (fR (fP dt (fG ((1 / 2) * dt) (fR s)))) ∧
    (strangStep dt).count SplitAction.refreshSources = 2 := by
  refine ⟨rfl, ?_⟩
  simp [strangStep, List.count_cons]

/-- C2 counterexample: a solver with the default configuration (so
`defer_growth = true`), nucleation and growth registered, one particle, a
nucleation rate of 3 and a per-particle carbon-addition rate of 5 has total
rate 8 used by `step` for the exponential waiting time — the growth rate is
not excluded, as the claim would require (which would give 3, the sum of
nucleation and coagulation contributions). -/
theorem C2_counterexample :
    (StochasticSolver.mk {} [{}] true true false false).config.defer_growth
        = true ∧
    ((StochasticSolver.mk {} [{}] true true false false).compute_rates 3
        (fun _ => 5) (fun _ => 0) 0).total_rate = 8 ∧
    |((StochasticSolver.mk {} [{}] true true false false).compute_rates 3
        (fun _ => 5) (fun _ => 0) 0).nucleation| +
      |((StochasticSolver.mk {} [{}] true true false false).compute_rates 3
        (fun _ => 5) (fun _ => 0) 0).coagulation| = 3 := by
  refine ⟨rfl, ?_, ?_⟩ <;>
    norm_num [StochasticSolver.compute_rates, ProcessRates.total_rate]

/-- C2 (amended): the total rate `R` used by `step` for the exponential
waiting time is independent of the `defer_growth` and `defer_oxidation`
flags, and always equals the sum of the absolute values of all four process
rates; in particular nucleation and coagulation are always included. -/
theorem C2_amended_rate_composition (s : StochasticSolver) (nucR : ℚ)
    (gR oxR : Particle → ℚ) (cR : ℚ) (dg dox : Bool) :
    StochasticSolver.compute_rates
        { s with config :=
            { s.config with defer_growth := dg, defer_oxidation := dox } }
        nucR gR oxR cR = s.compute_rates nucR gR oxR cR ∧
    (s.compute_rates nucR gR oxR cR).total_rate =
      |(s.compute_rates nucR gR oxR cR).nucleation| +
        |(s.compute_rates nucR gR oxR cR).growth| +
        |(s.compute_rates nucR gR oxR cR).coagulation| +
        |(s.compute_rates nucR gR oxR cR).oxidation| :=
  ⟨rfl, rfl⟩

/-- C3: the deferred pass of `_apply_deferred` contains no oxidation branch
at all, contradicting the claim (and the solver's own configuration
documentation): with `defer_oxidation = true` (the default), an oxidation
process registered, and no growth process, the deferred pass leaves every
particle unchanged — here the concrete particle (C=1000, H=100) over a
residual time of 1 s, for which the claim requires carbon removal. -/
theorem C3_deferred_oxidation_missing :
    SolverConfig.defer_oxidation {} = true ∧
    StochasticSolver.apply_deferred
        (StochasticSolver.mk {} [Particle.mk 1000 100 1 0 0]
          false false false true)
        (fun _ => 0) 1 = [Particle.mk 1000 100 1 0 0] := by
  exact ⟨rfl, rfl⟩

/-- C7 counterexample: with all four processes registered and a nucleation
rate equal to `AVOGADRO` (the code base's own Avogadro constant,
6.02214076e23), the claim's formula gives the `A4` source `-2·R_nuc/Nₐ = -2`
exactly, but `get_source_terms` divides by the rounded hard-coded constant
6.022e23 and returns a different value. -/
theorem C7_counterexample :
    StochasticSolver.get_source_terms
        (StochasticSolver.mk {} [] true true true true)
        { nucleation := AVOGADRO, growth := 0, coagulation := 0,
          oxidation := 0 } Species.A4 ≠ -2 := by
  simp [StochasticSolver.get_source_terms, addSource, emptySources]
  norm_num [AVOGADRO, NA_ROUNDED]

/-- C7 (amended): with all four processes registered, the exported source
terms are exactly `A4 ↦ -2·R_nuc/Nₐ'`, `H2 ↦ R_nuc/Nₐ' + R_grow/(4·Nₐ')`,
`C2H2 ↦ -R_grow/(2·Nₐ')`, `O2 ↦ -R_ox/(2·Nₐ')`, `CO ↦ R_ox/Nₐ'` in
mol/(m³·s), where `Nₐ'` is the rounded constant 6.022e23 hard-coded in
`get_source_terms` (not the `AVOGADRO` constant 6.02214076e23 used by the
rate laws). -/
theorem C7_amended_source_terms (s : StochasticSolver) (r : ProcessRates)
    (hN : s.hasNucleation = true) (hG : s.hasGrowth = true)
    (hO : s.hasOxidation = true) :
    s.get_source_terms r Species.A4 = -2 * r.nucleation / NA_ROUNDED ∧
    s.get_source_terms r Species.H2
      = r.nucleation / NA_ROUNDED + r.growth / (4 * NA_ROUNDED) ∧
    s.get_source_terms r Species.C2H2 = -(r.growth / (2 * NA_ROUNDED)) ∧
    s.get_source_terms r Species.O2 = -(r.oxidation / (2 * NA_ROUNDED)) ∧
    s.get_source_terms r Species.CO = r.oxidation / NA_ROUNDED := by
  refine ⟨?_, ?_, ?_, ?_, ?_⟩ <;>
    simp [StochasticSolver.get_source_terms, hN, hG, hO, addSource,
      emptySources] <;>
    ring

/-- C7 witness: the amended source-term formulas evaluated with all four
processes registered and the concrete rates (1, 2, 3, 4). -/
theorem C7_amended_source_terms_witness :
    StochasticSolver.get_source_terms (StochasticSolver.mk {} [] true true
        true true) ⟨1, 2, 3, 4⟩ Species.A4 = -2 * (1 : ℚ) / NA_ROUNDED ∧
    StochasticSolver.get_source_terms (StochasticSolver.mk {} [] true true
        true true) ⟨1, 2, 3, 4⟩ Species.H2
      = (1 : ℚ) / NA_ROUNDED + 2 / (4 * NA_ROUNDED) ∧
    StochasticSolver.get_source_terms (StochasticSolver.mk {} [] true true
        true true) ⟨1, 2, 3, 4⟩ Species.C2H2
      = -((2 : ℚ) / (2 * NA_ROUNDED)) ∧
    StochasticSolver.get_source_terms (StochasticSolver.mk {} [] true true
        true true) ⟨1, 2, 3, 4⟩ Species.O2
      = -((4 : ℚ) / (2 * NA_ROUNDED)) ∧
    StochasticSolver.get_source_terms (StochasticSolver.mk {} [] true true
        true true) ⟨1, 2, 3, 4⟩ Species.CO = (4 : ℚ) / NA_ROUNDED :=
  C7_amended_source_terms (StochasticSolver.mk {} [] true true true true)
    ⟨1, 2, 3, 4⟩ rfl rfl rfl

/-- C6: the nucleation rate is `½·k_nuc·[A4]²·Nₐ` with `[A4]` the precursor
concentration in mol/m³ (1000 times the kmol/m³ value the gas capability
returns); it is exactly 0 whenever `[A4] = 0`; and when the precursor is
absent from the mechanism (the lookup raises, modelled by `none`) the rate
is 0 and no exception propagates. -/
theorem C6_nucleation_rate (gas : GasCapability) (c : ℚ)
    (hc : gas.conc "A4" = some c) :
    nucleation_rate "A4" gas = (1 / 2) * k_nuc * (c * 1000) ^ 2 * AVOGADRO ∧
    (c = 0 → nucleation_rate "A4" gas = 0) ∧
    (∀ g2 : GasCapability, g2.conc "A4" = none →
      nucleation_rate "A4" g2 = 0) := by
  refine ⟨?_, ?_, ?_⟩
  · simp [nucleation_rate, hc]
  · intro h0; simp [nucleation_rate, hc, h0]
  · intro g2 h; simp [nucleation_rate, h]

/-- C6 witness: the nucleation-rate formula evaluated on the concrete gas
fixture holding `A4` at 2 kmol/m³. -/
theorem C6_nucleation_rate_witness :
    nucleation_rate "A4" gasA4
      = (1 / 2) * k_nuc * ((2 : ℚ) * 1000) ^ 2 * AVOGADRO ∧
    ((2 : ℚ) = 0 → nucleation_rate "A4" gasA4 = 0) ∧
    (∀ g2 : GasCapability, g2.conc "A4" = none →
      nucleation_rate "A4" g2 = 0) :=
  C6_nucleation_rate gasA4 2 rfl

/-- C1 counterexample: for the ensemble holding one particle with weight 1
and sample volume 1, halving removes `⌊1/2⌋ = 0` particles and doubles the
weight, so the number density changes from 1 to 2 — the claim fails on
ensembles of odd size. -/
theorem C1_counterexample :
    (0 : ℚ) < (ParticleEnsemble.mk [{}] 1 1).statistical_weight ∧
    (0 : ℚ) < (ParticleEnsemble.mk [{}] 1 1).sample_volume ∧
    ([] : List ℕ).length = (ParticleEnsemble.mk [{}] 1 1).n_particles / 2 ∧
    (ParticleEnsemble.mk [{}] 1 1).number_density = 1 ∧
    (ParticleEnsemble.halve (ParticleEnsemble.mk [{}] 1 1) []).number_density
      = 2 := by
  refine ⟨by norm_num, by norm_num, rfl, ?_, ?_⟩ <;>
    norm_num [ParticleEnsemble.number_density, ParticleEnsemble.halve,
      ParticleEnsemble.n_particles, popMany]

/-- Length of the deferred-pop removal: popping a strictly descending list
of valid indices removes exactly one particle per index. -/
theorem popMany_length (idxs : List ℕ) : ∀ ps : List Particle,
    idxs.Pairwise (· > ·) → (∀ i ∈ idxs, i < ps.length) →
    (popMany ps idxs).length = ps.length - idxs.length := by
  induction idxs with
  | nil => intro ps _ _; rfl
  | cons i rest ih =>
    intro ps hp hb
    have hi : i < ps.length := hb i (by simp)
    have hlen : (ps.eraseIdx i).length = ps.length - 1 := by
      rw [List.length_eraseIdx_of_lt hi]
    have hrest := (List.pairwise_cons.mp hp).1
    have hb2 : ∀ j ∈ rest, j < (ps.eraseIdx i).length := by
      intro j hj
      have hj1 : j < i := hrest j hj
      omega
    have hmain := ih (ps.eraseIdx i) (List.pairwise_cons.mp hp).2 hb2
    simp only [popMany, hmain, hlen, List.length_cons]
    omega

/-- C1 (amended): for every ensemble with positive weight and sample
volume, doubling leaves the number density `|E|·w/Vs` exactly unchanged,
and halving (removing the drawn `⌊|E|/2⌋` distinct indices and doubling
the weight) leaves it exactly unchanged whenever `|E|` is even; for odd
`|E|` the density changes, as the counterexample shows. -/
theorem C1_amended_density (e : ParticleEnsemble) (idxs : List ℕ)
    (hw : 0 < e.statistical_weight) (hv : 0 < e.sample_volume)
    (hsort : idxs.Pairwise (· > ·))
    (hbound : ∀ i ∈ idxs, i < e.particles.length)
    (hlen : idxs.length = e.particles.length / 2) :
    e.double.number_density = e.number_density ∧
    (2 ∣ e.particles.length →
      (e.halve idxs).number_density = e.number_density) := by
  have hv' : ¬ e.sample_volume ≤ 0 := not_le.mpr hv
  constructor
  · simp only [ParticleEnsemble.number_density, ParticleEnsemble.double,
      ParticleEnsemble.n_particles, List.length_append, List.length_map,
      if_neg hv']
    push_cast
    ring
  · rintro ⟨m, hm⟩
    have hpop : (popMany e.particles idxs).length
        = e.particles.length - idxs.length :=
      popMany_length idxs e.particles hsort hbound
    simp only [ParticleEnsemble.number_density, ParticleEnsemble.halve,
      ParticleEnsemble.n_particles, if_neg hv', hpop, hlen, hm]
    have h2 : 2 * m - 2 * m / 2 = m := by omega
    rw [h2]
    push_cast
    ring

/-- C1 witness: density preservation evaluated on the concrete two-particle
ensemble with weight 1, volume 1, halving by removing index 1. -/
theorem C1_amended_density_witness :
    (ParticleEnsemble.mk [{}, {}] 1 1).double.number_density
      = (ParticleEnsemble.mk [{}, {}] 1 1).number_density ∧
    (2 ∣ (ParticleEnsemble.mk [{}, {}] 1 1).particles.length →
      ((ParticleEnsemble.mk [{}, {}] 1 1).halve [1]).number_density
        = (ParticleEnsemble.mk [{}, {}] 1 1).number_density) :=
  C1_amended_density (ParticleEnsemble.mk [{}, {}] 1 1) [1]
    (by norm_num) (by norm_num) (by decide) (by decide) (by decide)

/-- C9 counterexample: on a two-particle ensemble with the weight vector
`[-1, 2]` — a negative entry with positive sum — the guards of
`select_weighted` pass and `rng.choice` raises `ValueError` on the negative
probability: a selector does raise a fatal error, and neither no-selection
nor a selection is returned, refuting the claim's error-freedom. -/
theorem C9_counterexample :
    ([{}, {}] : List Particle).length ≠ 0 ∧
    ¬ ([(-1 : ℚ), 2].sum ≤ 0) ∧
    select_weighted [{}, {}] [-1, 2] 0 = WeightedSelection.valueError := by
  have h0 : ([{}, {}] : List Particle).length ≠ 0 := by simp
  have hsum : ¬ ([(-1 : ℚ), 2].sum ≤ 0) := by norm_num
  have hlen : ([(-1 : ℚ), 2]).length = ([{}, {}] : List Particle).length := by
    simp
  have hany : ([(-1 : ℚ), 2].any (fun w => decide (w < 0))) = true := by
    norm_num [List.any_cons, List.any_nil]
  refine ⟨h0, hsum, ?_⟩
  rw [select_weighted, if_neg h0, if_neg hsum, if_pos hlen, if_pos hany]

/-- C9 (amended): pair selection returns no-selection exactly when the
ensemble holds fewer than 2 particles and otherwise (for any valid RNG
draws) two distinct valid indices, never raising; weighted selection always
returns no-selection when the ensemble is empty or the weights sum to a
non-positive value, and — provided the weight vector matches the ensemble
length and has no negative entry — it returns no-selection exactly in those
cases, never raises `ValueError`, and otherwise returns the drawn valid
index with its particle.  (With a negative entry but positive sum the
underlying `rng.choice` raises, as the counterexample shows.) -/
theorem C9_amended_selection (n r1 r2 : ℕ) (ps : List Particle)
    (ws : List ℚ) (draw : ℕ) :
    (select_random_pair n r1 r2 = none ↔ n < 2) ∧
    (2 ≤ n → r1 < n → r2 < n - 1 →
      ∃ i j, select_random_pair n r1 r2 = some (i, j) ∧ i ≠ j ∧
        i < n ∧ j < n) ∧
    (ps.length = 0 ∨ ws.sum ≤ 0 →
      select_weighted ps ws draw = WeightedSelection.noSelection) ∧
    (ws.length = ps.length → (∀ w ∈ ws, 0 ≤ w) → draw < ps.length →
      (select_weighted ps ws draw = WeightedSelection.noSelection ↔
        (ps.length = 0 ∨ ws.sum ≤ 0)) ∧
      select_weighted ps ws draw ≠ WeightedSelection.valueError) ∧
    (ws.length = ps.length → (∀ w ∈ ws, 0 ≤ w) → ps.length ≠ 0 →
      0 < ws.sum → draw < ps.length →
      ∃ p, ps.get? draw = some p ∧
        select_weighted ps ws draw = WeightedSelection.selection draw p) := by
  have hnoSel : ∀ hlen0 : ps.length = 0 ∨ ws.sum ≤ 0,
      select_weighted ps ws draw = WeightedSelection.noSelection := by
    intro h
    unfold select_weighted
    rcases h with h | h
    · rw [if_pos h]
    · rcases Nat.eq_zero_or_pos ps.length with h0 | h0
      · rw [if_pos h0]
      · rw [if_neg (by omega), if_pos h]
  have hanyFalse : (∀ w ∈ ws, 0 ≤ w) →
      ws.any (fun w => decide (w < 0)) = false := by
    intro hnn
    rw [List.any_eq_false]
    intro w hw
    simp only [decide_eq_true_eq, not_lt]
    exact hnn w hw
  have hSel : ∀ (hlen : ws.length = ps.length) (hnn : ∀ w ∈ ws, 0 ≤ w)
      (h0 : ps.length ≠ 0) (hsum : ¬ ws.sum ≤ 0) (hd : draw < ps.length),
      select_weighted ps ws draw
        = WeightedSelection.selection draw (ps.get ⟨draw, hd⟩) := by
    intro hlen hnn h0 hsum hd
    rw [select_weighted, if_neg h0, if_neg hsum, if_pos hlen,
      if_neg (by rw [hanyFalse hnn]; exact Bool.false_ne_true),
      List.get?_eq_get hd]
  refine ⟨?_, ?_, hnoSel, ?_, ?_⟩
  · unfold select_random_pair
    split <;> simp_all
  · intro h2 h1 hr2
    unfold select_random_pair
    rw [if_neg (by omega)]
    exact ⟨r1, _, rfl, by split <;> omega, h1, by split <;> omega⟩
  · intro hlen hnn hd
    by_cases h0 : ps.length = 0
    · refine ⟨⟨fun _ => Or.inl h0, fun _ => hnoSel (Or.inl h0)⟩, ?_⟩
      rw [hnoSel (Or.inl h0)]
      exact fun h => WeightedSelection.noConfusion h
    by_cases hsum : ws.sum ≤ 0
    · refine ⟨⟨fun _ => Or.inr hsum, fun _ => hnoSel (Or.inr hsum)⟩, ?_⟩
      rw [hnoSel (Or.inr hsum)]
      exact fun h => WeightedSelection.noConfusion h
    · rw [hSel hlen hnn h0 hsum hd]
      refine ⟨⟨fun h => WeightedSelection.noConfusion h,
        fun h => absurd h (by push_neg; exact ⟨h0, not_le.mp hsum⟩)⟩,
        fun h => WeightedSelection.noConfusion h⟩
  · intro hlen hnn h0 hsum hd
    exact ⟨ps.get ⟨draw, hd⟩, List.get?_eq_get hd,
      hSel hlen hnn h0 (not_le.mpr hsum) hd⟩

/-- C9 witness: both selectors evaluated at concrete inputs — three
particles with pair draws (0, 1), and the singleton particle list with the
valid weight vector `[2]` and draw 0. -/
theorem C9_amended_selection_witness :
    (select_random_pair 3 0 1 = none ↔ 3 < 2) ∧
    (2 ≤ 3 → 0 < 3 → 1 < 3 - 1 →
      ∃ i j, select_random_pair 3 0 1 = some (i, j) ∧ i ≠ j ∧
        i < 3 ∧ j < 3) ∧
    (([{}] : List Particle).length = 0 ∨ ([2] : List ℚ).sum ≤ 0 →
      select_weighted [{}] [2] 0 = WeightedSelection.noSelection) ∧
    (([2] : List ℚ).length = ([{}] : List Particle).length →
      (∀ w ∈ ([2] : List ℚ), 0 ≤ w) → 0 < ([{}] : List Particle).length →
      (select_weighted [{}] [2] 0 = WeightedSelection.noSelection ↔
        (([{}] : List Particle).length = 0 ∨ ([2] : List ℚ).sum ≤ 0)) ∧
      select_weighted [{}] [2] 0 ≠ WeightedSelection.valueError) ∧
    (([2] : List ℚ).length = ([{}] : List Particle).length →
      (∀ w ∈ ([2] : List ℚ), 0 ≤ w) → ([{}] : List Particle).length ≠ 0 →
      0 < ([2] : List ℚ).sum → 0 < ([{}] : List Particle).length →
      ∃ p, ([{}] : List Particle).get? 0 = some p ∧
        select_weighted [{}] [2] 0 = WeightedSelection.selection 0 p) :=
  C9_amended_selection 3 0 1 [{}] [2] 0

/-- Iteration count of the corrector loop is bounded by the fuel. -/
theorem correctorLoop_iters_le (adv : GasPhaseState → GasPhaseState)
    (tol : ℚ) (g0 : GasPhaseState) :
    ∀ (n : ℕ) (pred : GasPhaseState),
      (correctorLoop adv tol g0 n pred).2.1 ≤ n := by
  intro n
  induction n with
  | zero => intro pred; simp [correctorLoop]
  | succ k ih =>
    intro pred
    simp only [correctorLoop]
    split
    · simp
    · simpa using ih (adv g0)

/-- The corrector loop executes at least one iteration when given fuel. -/
theorem correctorLoop_iters_pos (adv : GasPhaseState → GasPhaseState)
    (tol : ℚ) (g0 : GasPhaseState) (n : ℕ) (pred : GasPhaseState) :
    1 ≤ (correctorLoop adv tol g0 (n + 1) pred).2.1 := by
  simp only [correctorLoop]
  split <;> simp

/-- With at least one iteration of fuel, the gas state left installed by the
corrector loop is the corrected state `adv g0`: every iteration restores the
saved initial state `g0` and re-advances it. -/
theorem correctorLoop_installed (adv : GasPhaseState → GasPhaseState)
    (tol : ℚ) (g0 : GasPhaseState) :
    ∀ (n : ℕ) (pred : GasPhaseState),
      (correctorLoop adv tol g0 (n + 1) pred).1 = adv g0 := by
  intro n
  induction n with
  | zero =>
    intro pred
    simp only [correctorLoop]
    split <;> rfl
  | succ k ih =>
    intro pred
    simp only [correctorLoop]
    split
    · rfl
    · simpa using ih (adv g0)

/-- With fuel for at least two iterations, the loop stops after the first
iteration exactly when the convergence check succeeds on the predicted and
corrected states. -/
theorem correctorLoop_first_stop (adv : GasPhaseState → GasPhaseState)
    (tol : ℚ) (g0 : GasPhaseState) (n : ℕ) (pred : GasPhaseState) :
    (correctorLoop adv tol g0 (n + 2) pred).2.1 = 1 ↔
      check_convergence tol pred (adv g0) = true := by
  simp only [correctorLoop]
  split
  · simp_all
  · rename_i h
    have hpos := correctorLoop_iters_pos adv tol g0 n (adv g0)
    constructor
    · intro h1
      exfalso
      have h2 : (correctorLoop adv tol g0 (n + 1) (adv g0)).2.1 + 1 = 1 := h1
      omega
    · intro hc
      exact absurd hc h

/-- C8: the predictor–corrector step runs its corrector loop at most
`maxIters` times (default `max_corrector_iters = 3`); every executed
iteration restores the saved initial state and re-advances the gas, so the
state left installed is `advCorr g0` whether or not convergence was
reached (on non-convergence it is the last iteration's corrected state);
the loop stops after the first iteration exactly when the corrected and
predicted states agree within the tolerance (default
`corrector_tol = 1/1000`) on relative temperature error and maximum
absolute mass-fraction error, which is precisely the convergence check. -/
theorem C8_predictor_corrector (advPred advCorr :
    GasPhaseState → GasPhaseState) (tol : ℚ) (m : ℕ) (g0 : GasPhaseState)
    (hm : 1 ≤ m) :
    (predictor_corrector_step advPred advCorr tol m g0).2.1 ≤ m ∧
    (predictor_corrector_step advPred advCorr tol m g0).1 = advCorr g0 ∧
    (2 ≤ m →
      ((predictor_corrector_step advPred advCorr tol m g0).2.1 = 1 ↔
        check_convergence tol (advPred g0) (advCorr g0) = true)) ∧
    (∀ s1 s2 : GasPhaseState, check_convergence tol s1 s2 = true ↔
      (|s2.T - s1.T| / max s1.T 1 ≤ tol ∧ maxAbsDiff s1.Y s2.Y ≤ tol)) ∧
    SplittingConfig.max_corrector_iters {} = 3 ∧
    SplittingConfig.corrector_tol {} = 1 / 1000 := by
  obtain ⟨k, rfl⟩ : ∃ k, m = k + 1 := ⟨m - 1, by omega⟩
  refine ⟨correctorLoop_iters_le advCorr tol g0 (k + 1) (advPred g0),
    correctorLoop_installed advCorr tol g0 k (advPred g0), ?_, ?_, rfl, rfl⟩
  · intro h2
    obtain ⟨j, rfl⟩ : ∃ j, k = j + 1 := ⟨k - 1, by omega⟩
    exact correctorLoop_first_stop advCorr tol g0 j (advPred g0)
  · intro s1 s2
    unfold check_convergence
    split_ifs with h1 h2
    · simp only [Bool.false_eq_true, false_iff]
      rintro ⟨ha, _⟩
      exact absurd h1 (not_lt.mpr ha)
    · simp only [Bool.false_eq_true, false_iff]
      rintro ⟨_, hb⟩
      exact absurd h2 (not_lt.mpr hb)
    · simp only [true_iff]
      exact ⟨not_lt.mp h1, not_lt.mp h2⟩

/-- C8 witness: the predictor–corrector contract evaluated with identity
gas advances, the default tolerance, the default three iterations, and the
concrete initial state (T = 1500, Y = [1]). -/
theorem C8_predictor_corrector_witness :
    (predictor_corrector_step id id (1 / 1000) 3 ⟨1500, [1]⟩).2.1 ≤ 3 ∧
    (predictor_corrector_step id id (1 / 1000) 3 ⟨1500, [1]⟩).1
      = id ⟨1500, [1]⟩ ∧
    (2 ≤ 3 →
      ((predictor_corrector_step id id (1 / 1000) 3 ⟨1500, [1]⟩).2.1 = 1 ↔
        check_convergence (1 / 1000) (id ⟨1500, [1]⟩) (id ⟨1500, [1]⟩)
          = true)) ∧
    (∀ s1 s2 : GasPhaseState, check_convergence (1 / 1000) s1 s2 = true ↔
      (|s2.T - s1.T| / max s1.T 1 ≤ 1 / 1000 ∧
        maxAbsDiff s1.Y s2.Y ≤ 1 / 1000)) ∧
    SplittingConfig.max_corrector_iters {} = 3 ∧
    SplittingConfig.corrector_tol {} = 1 / 1000 :=
  C8_predictor_corrector id id (1 / 1000) 3 ⟨1500, [1]⟩ (by norm_num)

end NanoSim
